import Mathlib

/-
Verification of the core behaviors of the ai-code-mentor backend:
the per-user hourly rate limiter (`app/services/rate_limiter.py`),
the JWKS-cached token verifier (`app/api/auth.py`), and
user resolution (`app/services/user_service.py`).

Modelling conventions:
- Timestamps (`datetime.utcnow()`) are integers counting seconds; the
  `timedelta(hours=1)` window is the constant `oneHourSecs = 3600`.
- The database row for a user is the structure `User`; the rate limiter's
  `select(User).where(User.id == user_id)` result is modelled as an
  `Option User` (the selected row, if present), and the full `users` table
  used by the user service as a `List User`.
- Python strings handled character-by-character (token extraction) are
  `List Char`; strings used only for equality tests are `String`.
- The external HTTP fetch of the JWKS is an input `Option Jwks`
  (`none` models an `httpx.HTTPError`); signature-key lookup and `jwt.decode`
  are an input oracle, since their outcome depends on cryptographic data
  outside this core.
- A raised Python exception is an `Except` error value of type `PyError`.
-/

namespace AiCodeMentor

/-- One hour in seconds: `timedelta(hours=1)` in the source. -/
def oneHourSecs : Int := 3600

/-- Default of `settings.MAX_PROMPTS_PER_HOUR` in `app/config.py`. -/
def MAX_PROMPTS_PER_HOUR : Nat := 20

/-- The `users` row (`app/models/user.py`), restricted to the columns the
core logic reads or writes: internal id (UUID, modelled as `Nat`),
`clerk_user_id`, `email` (non-nullable), `username` (nullable),
`hourly_prompt_count` (default 0) and `last_prompt_reset` (nullable). -/
structure User where
  id : Nat
  clerk_user_id : String
  email : String
  username : Option String
  hourly_prompt_count : Nat
  last_prompt_reset : Option Int
deriving Repr, DecidableEq

/-- Exceptions that cross the boundaries of the modelled functions:
`JWTError` from `python-jose`, FastAPI's `HTTPException` (with its status
code and detail), and any other exception. -/
inductive PyError where
  | jwtError (msg : String)
  | httpException (status : Nat) (detail : String)
  | otherError (msg : String)
deriving Repr, DecidableEq

/-! ## Rate limiter (`app/services/rate_limiter.py`) -/

/-- Lines 24-34 of `check_rate_limit`: if the user has a reset timestamp and
strictly more than one hour has elapsed, zero the counter and set the
timestamp to `now`; if the user has no reset timestamp, set it to `now`;
otherwise leave the row unchanged. -/
def resetIfExpired (user : User) (now : Int) : User :=
  match user.last_prompt_reset with
  | some t =>
      if now - t > oneHourSecs then
        { user with hourly_prompt_count := 0, last_prompt_reset := some now }
      else user
  | none => { user with last_prompt_reset := some now }

/-- `check_rate_limit(db, user_id)`. The argument `db` is the row selected by
`User.id == user_id` (`scalar_one_or_none`), `maxPrompts` is
`settings.MAX_PROMPTS_PER_HOUR`. Returns the `(can_proceed, remaining)`
pair together with the persisted row after the call: a missing user yields
`(False, 0)` with nothing written; otherwise the reset step of
`resetIfExpired` is persisted first, then the quota is checked, and on
success the counter is incremented and persisted. -/
def check_rate_limit (db : Option User) (now : Int) (maxPrompts : Nat) :
    (Bool × Nat) × Option User :=
  match db with
  | none => ((false, 0), none)
  | some user0 =>
      let user := resetIfExpired user0 now
      if user.hourly_prompt_count ≥ maxPrompts then
        ((false, 0), some user)
      else
        let user' := { user with hourly_prompt_count := user.hourly_prompt_count + 1 }
        ((true, maxPrompts - user'.hourly_prompt_count), some user')

/-- A sequence of `check_rate_limit` calls at the given times, threading the
persisted row through; returns the list of `(allowed, remaining)` results
and the final row. -/
def runCalls (ts : List Int) (maxPrompts : Nat) (db : Option User) :
    List (Bool × Nat) × Option User :=
  match ts with
  | [] => ([], db)
  | t :: rest =>
      let r := check_rate_limit db t maxPrompts
      let s := runCalls rest maxPrompts r.2
      (r.1 :: s.1, s.2)

/-! ## JWKS cache and token verifier (`app/api/auth.py`) -/

/-- One RSA public-key descriptor of a JWKS (`kid`, `n`, `e`, base64url). -/
structure JwksKey where
  kid : String
  n : String
  e : String
deriving Repr, DecidableEq

/-- The JSON object fetched from `<issuer>/.well-known/jwks.json`: an object
with a `keys` array. (As a non-empty JSON object it is always Python-truthy,
so the `if _jwks_cache` test is modelled by `Option.isSome`.) -/
structure Jwks where
  keys : List JwksKey
deriving Repr, DecidableEq

/-- The process-wide module globals `_jwks_cache` and `_jwks_cache_time`,
both initially `None`. -/
structure JwksCacheState where
  jwks_cache : Option Jwks
  jwks_cache_time : Option Int
deriving Repr, DecidableEq

/-- Lines 21-35 of `get_clerk_jwks`: the outcome of the
`httpx.AsyncClient` GET of the JWKS endpoint, given as an input (`none`
models a raised `httpx.HTTPError`). On success the two cache globals are
replaced; on failure an `HTTPException(503)` is raised and the globals are
left untouched. -/
def fetchJwks (st : JwksCacheState) (now : Int) (fetched : Option Jwks) :
    Except PyError Jwks × JwksCacheState :=
  match fetched with
  | some j => (.ok j, { jwks_cache := some j, jwks_cache_time := some now })
  | none => (.error (.httpException 503 "Failed to fetch Clerk JWKS"), st)

/-- `get_clerk_jwks()`: return the cached JWKS if both globals are set and
the cache is strictly less than one hour old; otherwise fetch from Clerk
(`fetchJwks`). -/
def get_clerk_jwks (st : JwksCacheState) (now : Int) (fetched : Option Jwks) :
    Except PyError Jwks × JwksCacheState :=
  match st.jwks_cache, st.jwks_cache_time with
  | some c, some t =>
      if now - t < oneHourSecs then (.ok c, st)
      else fetchJwks st now fetched
  | some _, none => fetchJwks st now fetched
  | none, _ => fetchJwks st now fetched

/-- Python `str.isspace` characters relevant here (ASCII whitespace). -/
def pyIsSpace (c : Char) : Bool :=
  c = ' ' || c = '\t' || c = '\n' || c = '\r'

/-- Python `str.strip()`: drop whitespace from both ends. -/
def pyStrip (s : List Char) : List Char :=
  ((s.dropWhile pyIsSpace).reverse.dropWhile pyIsSpace).reverse

/-- Equality of `Except` values is decidable when it is on both sides. -/
instance exceptDecEq {ε α : Type} [DecidableEq ε] [DecidableEq α] :
    DecidableEq (Except ε α) := fun x y =>
  match x, y with
  | .error a, .error b => decidable_of_iff (a = b) (by simp)
  | .ok a, .ok b => decidable_of_iff (a = b) (by simp)
  | .error _, .ok _ => isFalse (fun h => by cases h)
  | .ok _, .error _ => isFalse (fun h => by cases h)

/-- Scanning step of Python `str.replace(pat, "")` for a non-empty `pat`:
at each position, if `pat` matches, skip past it, else keep the character
and move on. The fuel argument (instantiated with the length of the string,
which bounds the number of steps) makes the recursion structural. -/
def removeAllGo (pat : List Char) : Nat → List Char → List Char
  | _, [] => []
  | 0, s => s
  | fuel + 1, c :: rest =>
      if pat.isPrefixOf (c :: rest) then
        removeAllGo pat fuel ((c :: rest).drop pat.length)
      else
        c :: removeAllGo pat fuel rest

/-- Python `str.replace(pat, "")`: remove every (non-overlapping,
left-to-right) occurrence of `pat`. -/
def removeAll (pat : List Char) (s : List Char) : List Char :=
  if pat = [] then s else removeAllGo pat s.length s

/-- The scheme marker `"Bearer "` checked by `startswith`. -/
def bearerMarker : List Char := "Bearer ".toList

/-- Lines 84-90 of `verify_clerk_token`: reject a header that does not start
with `"Bearer "`; otherwise the token is the header with every occurrence of
`"Bearer "` removed (`str.replace`) and whitespace stripped, rejected when
empty. -/
def extract_token (authorization : List Char) : Except PyError (List Char) :=
  if bearerMarker.isPrefixOf authorization then
    let token := pyStrip (removeAll bearerMarker authorization)
    if token = [] then .error (.httpException 401 "Missing token")
    else .ok token
  else
    .error (.httpException 401 "Invalid authorization format. Expected Bearer token")

/-- The `except` clauses at lines 120-125 of `verify_clerk_token`:
a `JWTError` becomes `HTTPException(401)`, an `HTTPException` is re-raised
unchanged, and any other exception becomes `HTTPException(401)`. -/
def handleVerifyError (e : PyError) : PyError :=
  match e with
  | .jwtError m => .httpException 401 ("Invalid token: " ++ m)
  | .httpException s d => .httpException s d
  | .otherError m => .httpException 401 ("Token verification failed: " ++ m)

/-- `verify_clerk_token(authorization)`. The pure data of the call: the
optional header, the cache globals, the clock, the JWKS fetch outcome, and
an oracle `decodeToken` standing for `get_signing_key` + `jwt.decode` +
reading the `sub` claim (its outcome depends on cryptographic material
outside this core; an empty string models a falsy/absent `sub`). Returns
the verification result together with the cache globals after the call. -/
def verify_clerk_token (authorization : Option (List Char)) (st : JwksCacheState)
    (now : Int) (fetched : Option Jwks)
    (decodeToken : List Char → Jwks → Except PyError String) :
    Except PyError String × JwksCacheState :=
  match authorization with
  | none => (.error (.httpException 401 "Missing authorization header"), st)
  | some auth =>
      if auth = [] then
        (.error (.httpException 401 "Missing authorization header"), st)
      else
        match extract_token auth with
        | .error e => (.error e, st)
        | .ok token =>
            match get_clerk_jwks st now fetched with
            | (.error e, st') => (.error (handleVerifyError e), st')
            | (.ok jwks, st') =>
                match decodeToken token jwks with
                | .error e => (.error (handleVerifyError e), st')
                | .ok sub =>
                    if sub = "" then
                      (.error (.httpException 401 "Token missing user ID (sub claim)"), st')
                    else (.ok sub, st')

/-! ## User resolution (`app/services/user_service.py`) -/

/-- Python truthiness of an optional string: `None` and `""` are falsy. -/
def pyTruthyStr (s : Option String) : Bool :=
  match s with
  | none => false
  | some v => !(v == "")

/-- Line 23-24 of `get_or_create_user`: `if email and user.email != email`,
update the stored (non-null) email. -/
def updEmail (u : User) (email : Option String) : User :=
  match email with
  | some e => if e ≠ "" ∧ u.email ≠ e then { u with email := e } else u
  | none => u

/-- Line 25-26 of `get_or_create_user`: `if username and user.username !=
username`, update the stored (nullable) username. -/
def updUsername (u : User) (username : Option String) : User :=
  match username with
  | some v => if v ≠ "" ∧ u.username ≠ some v then { u with username := some v } else u
  | none => u

/-- Replace the first element satisfying `p` by `f` of it (the ORM mutates
the row found by the `select ... where` lookup). -/
def updateFirst (p : User → Bool) (f : User → User) : List User → List User
  | [] => []
  | u :: rest => if p u then f u :: rest else u :: updateFirst p f rest

/-- `get_or_create_user(db, clerk_user_id, email, username)` over the
`users` table `db`. `freshId` is the `uuid.uuid4()` drawn for a creation and
`now` the server-side default for `last_prompt_reset` on insert. If a row
with the given `clerk_user_id` exists, conditionally update email/username
and return the row; otherwise raise `ValueError` when the email is falsy,
else insert and return a new row. Returns the result together with the
table after the call. -/
def get_or_create_user (db : List User) (freshId : Nat) (now : Int)
    (clerk_user_id : String) (email username : Option String) :
    Except String User × List User :=
  match db.find? (fun u => u.clerk_user_id == clerk_user_id) with
  | some user =>
      let user' := updUsername (updEmail user email) username
      (.ok user',
       updateFirst (fun u => u.clerk_user_id == clerk_user_id) (fun _ => user') db)
  | none =>
      if pyTruthyStr email then
        let newUser : User :=
          { id := freshId, clerk_user_id := clerk_user_id,
            email := email.getD "", username := username,
            hourly_prompt_count := 0, last_prompt_reset := some now }
        (.ok newUser, db ++ [newUser])
      else
        (.error "Email is required to create a new user", db)

/-! ## Rate limiter lemmas -/

/-- Within the window (at most one hour since the stored reset), the reset
step leaves the row unchanged. -/
lemma resetIfExpired_within (u : User) (t0 now : Int)
    (h : u.last_prompt_reset = some t0) (hw : now - t0 ≤ oneHourSecs) :
    resetIfExpired u now = u := by
  unfold resetIfExpired
  rw [h]
  exact if_neg (by omega)

/-- A single in-window call below the quota increments the counter and
reports the remaining quota. -/
lemma check_step_ok (u : User) (t0 now : Int) (max : Nat)
    (h : u.last_prompt_reset = some t0) (hw : now - t0 ≤ oneHourSecs)
    (hc : u.hourly_prompt_count < max) :
    check_rate_limit (some u) now max =
      ((true, max - (u.hourly_prompt_count + 1)),
       some { u with hourly_prompt_count := u.hourly_prompt_count + 1 }) := by
  simp only [check_rate_limit]
  rw [resetIfExpired_within u t0 now h hw]
  rw [if_neg (by omega : ¬ u.hourly_prompt_count ≥ max)]

/-- A single in-window call at or above the quota returns `(false, 0)` and
does not change the row. -/
lemma check_step_blocked (u : User) (t0 now : Int) (max : Nat)
    (h : u.last_prompt_reset = some t0) (hw : now - t0 ≤ oneHourSecs)
    (hc : max ≤ u.hourly_prompt_count) :
    check_rate_limit (some u) now max = ((false, 0), some u) := by
  simp only [check_rate_limit]
  rw [resetIfExpired_within u t0 now h hw]
  rw [if_pos (by omega : u.hourly_prompt_count ≥ max)]

/-- In-window calls that all fit under the quota: each succeeds with the
remaining quota decreasing by one, and the counter advances by the number of
calls. -/
lemma runCalls_ok (max : Nat) (t0 : Int) (ts : List Int) :
    ∀ u : User, u.last_prompt_reset = some t0 →
    (∀ t ∈ ts, t - t0 ≤ oneHourSecs) →
    u.hourly_prompt_count + ts.length ≤ max →
    runCalls ts max (some u) =
      ((List.range ts.length).map (fun i => (true, max - (u.hourly_prompt_count + 1 + i))),
       some { u with hourly_prompt_count := u.hourly_prompt_count + ts.length }) := by
  induction ts with
  | nil =>
      intro u h _ _
      simp [runCalls]
  | cons t rest ih =>
      intro u h hw hb
      have hw0 : t - t0 ≤ oneHourSecs := hw t (by simp)
      have hc : u.hourly_prompt_count < max := by
        simp only [List.length_cons] at hb; omega
      simp only [runCalls]
      rw [check_step_ok u t0 t max h hw0 hc]
      rw [ih { u with hourly_prompt_count := u.hourly_prompt_count + 1 }
            (by simpa using h)
            (fun s hs => hw s (by simp [hs]))
            (by simp only [List.length_cons] at hb; simpa using by omega)]
      refine congrArg₂ Prod.mk ?_ ?_
      · simp only [List.length_cons, List.range_succ_eq_map, List.map_cons, List.map_map]
        refine congrArg₂ List.cons (by simp) ?_
        refine congrArg (fun f => List.map f (List.range rest.length)) ?_
        funext i
        have : u.hourly_prompt_count + 1 + 1 + i = u.hourly_prompt_count + 1 + (i + 1) := by
          omega
        simp [Function.comp, this]
      · have : u.hourly_prompt_count + 1 + rest.length
            = u.hourly_prompt_count + (rest.length + 1) := by omega
        simp [this]

/-- In-window calls with the counter already at or above the quota: every
call returns `(false, 0)` and the row never changes. -/
lemma runCalls_blocked (max : Nat) (t0 : Int) (ts : List Int) :
    ∀ u : User, u.last_prompt_reset = some t0 →
    (∀ t ∈ ts, t - t0 ≤ oneHourSecs) →
    max ≤ u.hourly_prompt_count →
    runCalls ts max (some u) = (List.replicate ts.length (false, 0), some u) := by
  induction ts with
  | nil => intro u _ _ _; simp [runCalls]
  | cons t rest ih =>
      intro u h hw hb
      simp only [runCalls]
      rw [check_step_blocked u t0 t max h (hw t (by simp)) hb]
      rw [ih u h (fun s hs => hw s (by simp [hs])) hb]
      simp [List.replicate_succ]

/-- Running a concatenation of call sequences runs them in order, threading
the persisted row. -/
lemma runCalls_append (max : Nat) (a b : List Int) :
    ∀ db : Option User,
    runCalls (a ++ b) max db =
      ((runCalls a max db).1 ++ (runCalls b max (runCalls a max db).2).1,
       (runCalls b max (runCalls a max db).2).2) := by
  induction a with
  | nil => intro db; simp [runCalls]
  | cons t rest ih => intro db; simp [runCalls, ih]

/-! ## Claim theorems: rate limiter -/

/-- Claim C1: starting from `hourly_prompt_count = 0` with the stored reset
within the window, a sequence of `check_rate_limit` calls that never
advances past the window returns `allowed = true` for exactly the first
`max_prompts` calls, with `remaining` decreasing from `max_prompts - 1` down
to `0`, and the `(max_prompts + 1)`-th call returns `(false, 0)` with the
counter left at `max_prompts` (not incremented further). -/
theorem C1_quota_sequence (max : Nat) (t0 : Int) (ts : List Int) (tlast : Int)
    (u : User)
    (hcount : u.hourly_prompt_count = 0)
    (hreset : u.last_prompt_reset = some t0)
    (hlen : ts.length = max)
    (hin : ∀ t ∈ ts, t - t0 ≤ oneHourSecs)
    (hlastin : tlast - t0 ≤ oneHourSecs) :
    runCalls (ts ++ [tlast]) max (some u) =
      ((List.range max).map (fun i => (true, max - (i + 1))) ++ [(false, 0)],
       some { u with hourly_prompt_count := max }) := by
  rw [runCalls_append]
  rw [runCalls_ok max t0 ts u hreset hin (by omega)]
  rw [runCalls_blocked max t0 [tlast] { u with hourly_prompt_count := u.hourly_prompt_count + ts.length }
        (by simpa using hreset)
        (by intro s hs; simp only [List.mem_singleton] at hs; omega)
        (by simp only []; omega)]
  refine congrArg₂ Prod.mk ?_ ?_
  · rw [hlen]
    refine congrArg₂ HAppend.hAppend ?_ (by simp)
    refine congrArg (fun f => List.map f (List.range max)) ?_
    funext i
    rw [hcount]
    exact congrArg (fun k => ((true, max - k) : Bool × Nat)) (by omega)
  · rw [hcount, hlen]
    simp

/-- Witness for C1 at `max_prompts = 20` (the configured default), with all
twenty-one calls at the reset instant. -/
theorem C1_quota_sequence_witness :
    runCalls (List.replicate MAX_PROMPTS_PER_HOUR 0 ++ [0]) MAX_PROMPTS_PER_HOUR
        (some ⟨1, "clerk_1", "a@b.c", none, 0, some 0⟩) =
      ((List.range MAX_PROMPTS_PER_HOUR).map
          (fun i => (true, MAX_PROMPTS_PER_HOUR - (i + 1))) ++ [(false, 0)],
       some ⟨1, "clerk_1", "a@b.c", none, MAX_PROMPTS_PER_HOUR, some 0⟩) :=
  C1_quota_sequence MAX_PROMPTS_PER_HOUR 0 (List.replicate MAX_PROMPTS_PER_HOUR 0) 0
    ⟨1, "clerk_1", "a@b.c", none, 0, some 0⟩
    rfl rfl (by decide) (by decide) (by decide)

/-- Claim C2: for a user with a stored reset timestamp, the counter is
zeroed and the timestamp set to `now` exactly when strictly more than one
hour has elapsed; at exactly one hour (or less) nothing is reset; and after
a reset the call (with `max_prompts ≥ 1`) behaves as from a fresh zero
counter regardless of the prior count, returning
`(true, max_prompts - 1)`. -/
theorem C2_reset_boundary (u : User) (t0 now : Int) (max : Nat)
    (hreset : u.last_prompt_reset = some t0) :
    (oneHourSecs < now - t0 →
      resetIfExpired u now
          = { u with hourly_prompt_count := 0, last_prompt_reset := some now } ∧
      (1 ≤ max →
        check_rate_limit (some u) now max =
          ((true, max - 1),
           some { u with hourly_prompt_count := 1, last_prompt_reset := some now })))
    ∧ (now - t0 ≤ oneHourSecs → resetIfExpired u now = u) := by
  constructor
  · intro hgt
    have hre : resetIfExpired u now
        = { u with hourly_prompt_count := 0, last_prompt_reset := some now } := by
      unfold resetIfExpired
      rw [hreset]
      exact if_pos (by omega)
    refine ⟨hre, fun hmax => ?_⟩
    simp only [check_rate_limit]
    rw [hre]
    rw [if_neg (by simp only []; omega)]
  · intro hle
    exact resetIfExpired_within u t0 now hreset hle

/-- Witness for C2: a user exhausted at count 20 whose reset happened 3601
seconds ago is reset and allowed again; at exactly 3600 seconds nothing is
reset. -/
theorem C2_reset_boundary_witness :
    resetIfExpired ⟨1, "clerk_1", "a@b.c", none, 20, some 0⟩ 3601
        = ⟨1, "clerk_1", "a@b.c", none, 0, some 3601⟩
    ∧ check_rate_limit (some ⟨1, "clerk_1", "a@b.c", none, 20, some 0⟩) 3601 20 =
        ((true, 19), some ⟨1, "clerk_1", "a@b.c", none, 1, some 3601⟩)
    ∧ resetIfExpired ⟨1, "clerk_1", "a@b.c", none, 20, some 0⟩ 3600
        = ⟨1, "clerk_1", "a@b.c", none, 20, some 0⟩ :=
  ⟨((C2_reset_boundary ⟨1, "clerk_1", "a@b.c", none, 20, some 0⟩ 0 3601 20 rfl).1
      (by decide)).1,
   ((C2_reset_boundary ⟨1, "clerk_1", "a@b.c", none, 20, some 0⟩ 0 3601 20 rfl).1
      (by decide)).2 (by decide),
   (C2_reset_boundary ⟨1, "clerk_1", "a@b.c", none, 20, some 0⟩ 0 3600 20 rfl).2
      (by decide)⟩

/-- Claim C5: if `hourly_prompt_count ≤ max_prompts` before a
`check_rate_limit` call, then every row the call persists again satisfies
`hourly_prompt_count ≤ max_prompts` (the lower bound 0 holds by the type). -/
theorem C5_count_bound (u : User) (now : Int) (max : Nat)
    (hb : u.hourly_prompt_count ≤ max) :
    ∀ u', (check_rate_limit (some u) now max).2 = some u' →
      u'.hourly_prompt_count ≤ max := by
  intro u' h
  have hr : (resetIfExpired u now).hourly_prompt_count = 0 ∨
      (resetIfExpired u now).hourly_prompt_count = u.hourly_prompt_count := by
    unfold resetIfExpired
    cases u.last_prompt_reset with
    | none => right; rfl
    | some t =>
        by_cases hc : now - t > oneHourSecs
        · left; simp [hc]
        · right; simp [hc]
  simp only [check_rate_limit] at h
  by_cases hc : (resetIfExpired u now).hourly_prompt_count ≥ max
  · rw [if_pos hc] at h
    have : u' = resetIfExpired u now := by
      simpa using h.symm
    rw [this]
    omega
  · rw [if_neg hc] at h
    have : u' = { resetIfExpired u now with
        hourly_prompt_count := (resetIfExpired u now).hourly_prompt_count + 1 } := by
      simpa using h.symm
    rw [this]
    simp only []
    omega

/-- Witness for C5: a user at count 20 of 20 stays at 20 after the call. -/
theorem C5_count_bound_witness :
    (20 : Nat) ≤ 20
    ∧ (check_rate_limit (some ⟨1, "clerk_1", "a@b.c", none, 20, some 0⟩) 30 20).2 =
        some ⟨1, "clerk_1", "a@b.c", none, 20, some 0⟩
    ∧ (⟨1, "clerk_1", "a@b.c", none, 20, some 0⟩ : User).hourly_prompt_count ≤ 20 :=
  ⟨by decide, by decide,
   C5_count_bound ⟨1, "clerk_1", "a@b.c", none, 20, some 0⟩ 30 20 (by decide)
     ⟨1, "clerk_1", "a@b.c", none, 20, some 0⟩ (by decide)⟩

/-- Claim C10: when no row exists for the user id, `check_rate_limit`
returns `(False, 0)` and writes nothing. -/
theorem C10_missing_user (now : Int) (max : Nat) :
    check_rate_limit none now max = ((false, 0), none) := rfl

/-! ## JWKS cache lemmas and claim theorems -/

/-- When every cached timestamp is at least one hour old (or a cache field
is absent), `get_clerk_jwks` takes the fetch path. -/
lemma get_clerk_jwks_no_usable_cache (st : JwksCacheState) (now : Int)
    (fetched : Option Jwks)
    (hcache : ∀ c t, st.jwks_cache = some c → st.jwks_cache_time = some t →
      oneHourSecs ≤ now - t) :
    get_clerk_jwks st now fetched = fetchJwks st now fetched := by
  obtain ⟨cv, ct⟩ := st
  cases cv with
  | none => rfl
  | some c =>
      cases ct with
      | none => rfl
      | some t =>
          have := hcache c t rfl rfl
          simp only [get_clerk_jwks]
          rw [if_neg (by omega)]

/-- Claim C3: a JWKS cached at time `T` is returned unchanged (cache kept)
for any call before `T + 1h`; at or past one hour of age, or with either
cache global unset, a successful fetch is returned and replaces both cache
value and timestamp; a stale entry is never returned (a failing fetch with
a stale cache raises rather than serving the stale value). -/
theorem C3_jwks_cache_freshness (c j : Jwks) (T now : Int) (fetched : Option Jwks)
    (cv : Option Jwks) (ct : Option Int) :
    (now - T < oneHourSecs →
      get_clerk_jwks ⟨some c, some T⟩ now fetched = (.ok c, ⟨some c, some T⟩))
    ∧ (oneHourSecs ≤ now - T →
      get_clerk_jwks ⟨some c, some T⟩ now (some j) = (.ok j, ⟨some j, some now⟩))
    ∧ (oneHourSecs ≤ now - T →
      get_clerk_jwks ⟨some c, some T⟩ now none =
        (.error (.httpException 503 "Failed to fetch Clerk JWKS"), ⟨some c, some T⟩))
    ∧ get_clerk_jwks ⟨none, ct⟩ now (some j) = (.ok j, ⟨some j, some now⟩)
    ∧ get_clerk_jwks ⟨cv, none⟩ now (some j) = (.ok j, ⟨some j, some now⟩) := by
  refine ⟨fun hfresh => ?_, fun hstale => ?_, fun hstale => ?_, ?_, ?_⟩
  · simp only [get_clerk_jwks]
    rw [if_pos (by omega)]
  · simp only [get_clerk_jwks]
    rw [if_neg (by omega)]
    rfl
  · simp only [get_clerk_jwks]
    rw [if_neg (by omega)]
    rfl
  · rfl
  · cases cv <;> rfl

/-- Witness for C3 at concrete times: fresh at age 3599s, refetched at age
3600s, error (not the stale value) when the refetch fails. -/
theorem C3_jwks_cache_freshness_witness :
    get_clerk_jwks ⟨some ⟨[]⟩, some 0⟩ 3599 (some ⟨[⟨"k", "n", "e"⟩]⟩) =
        (.ok ⟨[]⟩, ⟨some ⟨[]⟩, some 0⟩)
    ∧ get_clerk_jwks ⟨some ⟨[]⟩, some 0⟩ 3600 (some ⟨[⟨"k", "n", "e"⟩]⟩) =
        (.ok ⟨[⟨"k", "n", "e"⟩]⟩, ⟨some ⟨[⟨"k", "n", "e"⟩]⟩, some 3600⟩)
    ∧ get_clerk_jwks ⟨some ⟨[]⟩, some 0⟩ 3600 none =
        (.error (.httpException 503 "Failed to fetch Clerk JWKS"), ⟨some ⟨[]⟩, some 0⟩)
    ∧ get_clerk_jwks ⟨none, some 7⟩ 3600 (some ⟨[⟨"k", "n", "e"⟩]⟩) =
        (.ok ⟨[⟨"k", "n", "e"⟩]⟩, ⟨some ⟨[⟨"k", "n", "e"⟩]⟩, some 3600⟩)
    ∧ get_clerk_jwks ⟨some ⟨[]⟩, none⟩ 3600 (some ⟨[⟨"k", "n", "e"⟩]⟩) =
        (.ok ⟨[⟨"k", "n", "e"⟩]⟩, ⟨some ⟨[⟨"k", "n", "e"⟩]⟩, some 3600⟩) :=
  ⟨(C3_jwks_cache_freshness ⟨[]⟩ ⟨[⟨"k", "n", "e"⟩]⟩ 0 3599
      (some ⟨[⟨"k", "n", "e"⟩]⟩) (some ⟨[]⟩) (some 7)).1 (by decide),
   (C3_jwks_cache_freshness ⟨[]⟩ ⟨[⟨"k", "n", "e"⟩]⟩ 0 3600
      (some ⟨[⟨"k", "n", "e"⟩]⟩) (some ⟨[]⟩) (some 7)).2.1 (by decide),
   (C3_jwks_cache_freshness ⟨[]⟩ ⟨[⟨"k", "n", "e"⟩]⟩ 0 3600
      (some ⟨[⟨"k", "n", "e"⟩]⟩) (some ⟨[]⟩) (some 7)).2.2.1 (by decide),
   (C3_jwks_cache_freshness ⟨[]⟩ ⟨[⟨"k", "n", "e"⟩]⟩ 0 3600
      (some ⟨[⟨"k", "n", "e"⟩]⟩) (some ⟨[]⟩) (some 7)).2.2.2.1,
   (C3_jwks_cache_freshness ⟨[]⟩ ⟨[⟨"k", "n", "e"⟩]⟩ 0 3600
      (some ⟨[⟨"k", "n", "e"⟩]⟩) (some ⟨[]⟩) (some 7)).2.2.2.2⟩

/-- Claim C4: when the JWKS fetch fails and no usable (fresh) cache exists,
verification of a well-formed bearer header fails with the 503
`ServiceUnavailable` raised in `get_clerk_jwks`, re-raised unchanged by the
`except HTTPException` clause — never a 401, which is a distinct error
value. -/
theorem C4_fetch_failure_is_503 (st : JwksCacheState) (now : Int) (a : List Char)
    (decodeToken : List Char → Jwks → Except PyError String) (tok : List Char)
    (hcache : ∀ c t, st.jwks_cache = some c → st.jwks_cache_time = some t →
      oneHourSecs ≤ now - t)
    (hne : a ≠ [])
    (hex : extract_token a = .ok tok) :
    verify_clerk_token (some a) st now none decodeToken =
      (.error (.httpException 503 "Failed to fetch Clerk JWKS"), st)
    ∧ ∀ d d' : String, PyError.httpException 503 d ≠ PyError.httpException 401 d' := by
  constructor
  · simp only [verify_clerk_token]
    rw [if_neg hne, hex, get_clerk_jwks_no_usable_cache st now none hcache]
    rfl
  · intro d d' h
    cases h

/-- Witness for C4: empty cache, failing fetch, header `Bearer x`. -/
theorem C4_fetch_failure_is_503_witness :
    verify_clerk_token (some "Bearer x".toList) ⟨none, none⟩ 0 none
        (fun _ _ => .ok "user_1") =
      (.error (.httpException 503 "Failed to fetch Clerk JWKS"), ⟨none, none⟩)
    ∧ ∀ d d' : String, PyError.httpException 503 d ≠ PyError.httpException 401 d' :=
  C4_fetch_failure_is_503 ⟨none, none⟩ 0 "Bearer x".toList
    (fun _ _ => .ok "user_1") "x".toList
    (fun c t hc _ => by cases hc) (by decide) (by decide)

/-- Claim C7: an absent (or empty, hence Python-falsy) header, or a header
not starting with `"Bearer "`, fails with a 401 before any JWKS fetch: the
result is the same for every fetch outcome and cache state — in particular
it is 401 even when a fetch would have failed with 503 — and the cache
globals are untouched. -/
theorem C7_missing_or_unprefixed_header (st : JwksCacheState) (now : Int)
    (fetched : Option Jwks)
    (decodeToken : List Char → Jwks → Except PyError String) :
    verify_clerk_token none st now fetched decodeToken =
      (.error (.httpException 401 "Missing authorization header"), st)
    ∧ ∀ a : List Char, ¬ bearerMarker.isPrefixOf a →
        ∃ d, verify_clerk_token (some a) st now fetched decodeToken =
          (.error (.httpException 401 d), st) := by
  constructor
  · rfl
  · intro a h
    by_cases ha : a = []
    · exact ⟨"Missing authorization header", by simp [verify_clerk_token, ha]⟩
    · refine ⟨"Invalid authorization format. Expected Bearer token", ?_⟩
      simp only [verify_clerk_token]
      rw [if_neg ha]
      unfold extract_token
      rw [if_neg h]

/-- Witness for C7: header `Token x` with an empty cache and a failing
fetch still yields a 401, not a 503. -/
theorem C7_missing_or_unprefixed_header_witness :
    (verify_clerk_token none ⟨none, none⟩ 0 none (fun _ _ => .ok "user_1") =
      (.error (.httpException 401 "Missing authorization header"), ⟨none, none⟩))
    ∧ ∃ d, verify_clerk_token (some "Token x".toList) ⟨none, none⟩ 0 none
        (fun _ _ => .ok "user_1") = (.error (.httpException 401 d), ⟨none, none⟩) :=
  ⟨(C7_missing_or_unprefixed_header ⟨none, none⟩ 0 none (fun _ _ => .ok "user_1")).1,
   (C7_missing_or_unprefixed_header ⟨none, none⟩ 0 none (fun _ _ => .ok "user_1")).2
     "Token x".toList (by decide)⟩

/-! ## Token extraction lemmas and claim C6 -/

/-- A list is a `isPrefixOf` of itself followed by anything. -/
lemma isPrefixOf_append_self (p s : List Char) : p.isPrefixOf (p ++ s) = true := by
  induction p with
  | nil => simp [List.isPrefixOf]
  | cons c p ih => simp [List.isPrefixOf, ih]

/-- The replace scan does not depend on the fuel, as long as the fuel is at
least the length of the string. -/
lemma removeAllGo_fuel (p : List Char) (hp : p ≠ []) :
    ∀ (fuel : Nat) (s : List Char), s.length ≤ fuel →
      removeAllGo p fuel s = removeAllGo p s.length s := by
  intro fuel
  induction fuel using Nat.strong_induction_on with
  | _ fuel ih =>
      intro s hs
      cases s with
      | nil => cases fuel <;> rfl
      | cons c rest =>
          simp only [List.length_cons] at hs ⊢
          cases fuel with
          | zero => omega
          | succ fuel =>
              have hplen : 0 < p.length := List.length_pos.mpr hp
              by_cases hpre : p.isPrefixOf (c :: rest)
              · simp only [removeAllGo, hpre, if_true]
                have hdlen : ((c :: rest).drop p.length).length ≤ rest.length := by
                  simp only [List.length_drop, List.length_cons]
                  omega
                rw [ih fuel (by omega) _ (by omega)]
                rw [ih rest.length (by omega) _ hdlen]
              · simp only [removeAllGo, hpre, if_false]
                rw [ih fuel (by omega) rest (by omega)]
                rw [ih rest.length (by omega) rest (le_refl _)]
                simp

/-- Removing every `"Bearer "` from `"Bearer " ++ t` removes the leading
marker and then scans `t`. -/
lemma removeAll_bearer_append (t : List Char) :
    removeAll bearerMarker (bearerMarker ++ t) = removeAll bearerMarker t := by
  have hbm : bearerMarker ≠ [] := by decide
  have hlen : bearerMarker.length = 7 := rfl
  unfold removeAll
  rw [if_neg hbm, if_neg hbm]
  rw [List.length_append, hlen]
  rw [show (7 : Nat) + t.length = (6 + t.length) + 1 from by omega]
  rw [show bearerMarker ++ t = 'B' :: ("earer ".toList ++ t) from rfl]
  simp only [removeAllGo,
    show List.isPrefixOf bearerMarker ('B' :: ("earer ".toList ++ t)) = true from
      isPrefixOf_append_self bearerMarker t,
    if_true]
  rw [show ('B' :: ("earer ".toList ++ t)).drop bearerMarker.length = t from
      List.drop_left bearerMarker t]
  exact removeAllGo_fuel bearerMarker hbm (6 + t.length) t (by omega)

/-- Counterexample to claim C6: for the header `"Bearer  abc"` — the scheme
marker followed by the remainder `" abc"` — the token handed to key lookup
and verification is `"abc"`, not the remainder `" abc"`: the code strips
whitespace (and removes *every* occurrence of `"Bearer "`), so the token is
not always exactly the remainder. -/
theorem C6_counterexample :
    "Bearer  abc".toList = bearerMarker ++ " abc".toList
    ∧ extract_token "Bearer  abc".toList = .ok "abc".toList
    ∧ "abc".toList ≠ " abc".toList
    ∧ extract_token "Bearer Bearer x".toList = .ok "x".toList
    ∧ "x".toList ≠ "Bearer x".toList := by
  decide

/-- Claim C6 as amended: for a header `"Bearer " ++ t`, the token submitted
downstream is `t` with every occurrence of `"Bearer "` removed and
whitespace stripped from both ends; the verifier fails with a 401 exactly
when that processed token is empty (in particular when `t` is empty or all
whitespace). -/
theorem C6_amended_extracted_token (t : List Char) :
    extract_token (bearerMarker ++ t) =
      (if pyStrip (removeAll bearerMarker t) = [] then
        .error (.httpException 401 "Missing token")
      else .ok (pyStrip (removeAll bearerMarker t))) := by
  unfold extract_token
  rw [removeAll_bearer_append t]
  rw [if_pos (isPrefixOf_append_self bearerMarker t)]

/-! ## User resolution lemmas -/

/-- The conditional email update never touches the subject id. -/
lemma updEmail_clerk (u : User) (email : Option String) :
    (updEmail u email).clerk_user_id = u.clerk_user_id := by
  cases email with
  | none => rfl
  | some e => by_cases hc : e ≠ "" ∧ u.email ≠ e <;> simp [updEmail, hc]

/-- The conditional email update never touches the username. -/
lemma updEmail_username (u : User) (email : Option String) :
    (updEmail u email).username = u.username := by
  cases email with
  | none => rfl
  | some e => by_cases hc : e ≠ "" ∧ u.email ≠ e <;> simp [updEmail, hc]

/-- The conditional username update never touches the subject id. -/
lemma updUsername_clerk (u : User) (username : Option String) :
    (updUsername u username).clerk_user_id = u.clerk_user_id := by
  cases username with
  | none => rfl
  | some v => by_cases hc : v ≠ "" ∧ u.username ≠ some v <;> simp [updUsername, hc]

/-- The conditional username update never touches the email. -/
lemma updUsername_email (u : User) (username : Option String) :
    (updUsername u username).email = u.email := by
  cases username with
  | none => rfl
  | some v => by_cases hc : v ≠ "" ∧ u.username ≠ some v <;> simp [updUsername, hc]

/-- After an update with a truthy email, the stored email is that email. -/
lemma updEmail_email_eq (u : User) (e : String) (he : e ≠ "") :
    (updEmail u (some e)).email = e := by
  by_cases hc : u.email = e
  · simp [updEmail, hc]
  · simp [updEmail, he, hc]

/-- After an update with a truthy username, the stored username is it. -/
lemma updUsername_username_eq (u : User) (v : String) (hv : v ≠ "") :
    (updUsername u (some v)).username = some v := by
  by_cases hc : u.username = some v
  · simp [updUsername, hc]
  · simp [updUsername, hv, hc]

/-- If the incoming email is falsy or already stored, the update is a
no-op. -/
lemma updEmail_noop (u : User) (email : Option String)
    (h : ∀ e, email = some e → e = "" ∨ u.email = e) : updEmail u email = u := by
  cases email with
  | none => rfl
  | some e =>
      by_cases hc : e ≠ "" ∧ u.email ≠ e
      · rcases h e rfl with he | he
        · exact absurd he hc.1
        · exact absurd he hc.2
      · simp [updEmail, hc]

/-- If the incoming username is falsy or already stored, the update is a
no-op. -/
lemma updUsername_noop (u : User) (username : Option String)
    (h : ∀ v, username = some v → v = "" ∨ u.username = some v) :
    updUsername u username = u := by
  cases username with
  | none => rfl
  | some v =>
      by_cases hc : v ≠ "" ∧ u.username ≠ some v
      · rcases h v rfl with hv | hv
        · exact absurd hv hc.1
        · exact absurd hv hc.2
      · simp [updUsername, hc]

/-- Applying the profile update a second time with the same arguments
changes nothing. -/
lemma second_update_id (u : User) (email username : Option String) :
    updUsername (updEmail (updUsername (updEmail u email) username) email) username
      = updUsername (updEmail u email) username := by
  have h1 : updEmail (updUsername (updEmail u email) username) email
      = updUsername (updEmail u email) username := by
    apply updEmail_noop
    intro e he
    by_cases he0 : e = ""
    · exact Or.inl he0
    · right
      rw [updUsername_email, he, updEmail_email_eq u e he0]
  rw [h1]
  apply updUsername_noop
  intro v hv
  by_cases hv0 : v = ""
  · exact Or.inl hv0
  · right
    rw [hv]
    exact updUsername_username_eq (updEmail u email) v hv0

/-- Replacing the first match by `x` (with `p x`) makes `x` the first
match. -/
lemma find?_updateFirst (p : User → Bool) (x u : User) (hx : p x = true) :
    ∀ l : List User, l.find? p = some u →
      (updateFirst p (fun _ => x) l).find? p = some x := by
  intro l
  induction l with
  | nil => intro h; simp [List.find?] at h
  | cons a l ih =>
      intro h
      by_cases hpa : p a
      · simp [updateFirst, hpa, List.find?, hx]
      · simp only [updateFirst, hpa, if_false]
        simp only [List.find?, hpa]
        apply ih
        simpa [List.find?, hpa] using h

/-- Replacing the first match by itself changes nothing. -/
lemma updateFirst_self (p : User → Bool) (x : User) :
    ∀ l : List User, l.find? p = some x → updateFirst p (fun _ => x) l = l := by
  intro l
  induction l with
  | nil => intro h; simp [List.find?] at h
  | cons a l ih =>
      intro h
      by_cases hpa : p a
      · have hax : x = a := by simpa [List.find?, hpa] using h.symm
        simp [updateFirst, hpa, hax]
      · rw [show updateFirst p (fun _ => x) (a :: l) = a :: updateFirst p (fun _ => x) l
            from by simp [updateFirst, hpa]]
        rw [ih (by simpa [List.find?, hpa] using h)]

/-- Appending a matching row to a list with no match makes it the first
match. -/
lemma find?_append_none (p : User → Bool) (n : User) (hn : p n = true) :
    ∀ l : List User, l.find? p = none → (l ++ [n]).find? p = some n := by
  intro l
  induction l with
  | nil => simp [List.find?, hn]
  | cons a l ih =>
      intro h
      by_cases hpa : p a
      · simp [List.find?, hpa] at h
      · simp only [List.cons_append, List.find?, hpa]
        exact ih (by simpa [List.find?, hpa] using h)

/-- Behavior of `get_or_create_user` when the lookup finds a row. -/
lemma get_or_create_found (db : List User) (fid : Nat) (now : Int) (cid : String)
    (email username : Option String) (u : User)
    (hf : db.find? (fun x => x.clerk_user_id == cid) = some u) :
    get_or_create_user db fid now cid email username =
      (.ok (updUsername (updEmail u email) username),
       updateFirst (fun x => x.clerk_user_id == cid)
         (fun _ => updUsername (updEmail u email) username) db) := by
  unfold get_or_create_user
  rw [hf]

/-- Behavior of `get_or_create_user` on a miss with a truthy email. -/
lemma get_or_create_notfound_truthy (db : List User) (fid : Nat) (now : Int)
    (cid : String) (email username : Option String)
    (hf : db.find? (fun x => x.clerk_user_id == cid) = none)
    (ht : pyTruthyStr email = true) :
    get_or_create_user db fid now cid email username =
      (.ok ⟨fid, cid, email.getD "", username, 0, some now⟩,
       db ++ [⟨fid, cid, email.getD "", username, 0, some now⟩]) := by
  unfold get_or_create_user
  rw [hf]
  simp only [ht, if_true]

/-- Behavior of `get_or_create_user` on a miss with a falsy email. -/
lemma get_or_create_notfound_falsy (db : List User) (fid : Nat) (now : Int)
    (cid : String) (email username : Option String)
    (hf : db.find? (fun x => x.clerk_user_id == cid) = none)
    (ht : pyTruthyStr email = false) :
    get_or_create_user db fid now cid email username =
      (.error "Email is required to create a new user", db) := by
  unfold get_or_create_user
  rw [hf]
  simp [ht]

/-! ## Claim theorems: user resolution -/

/-- Claim C8: for a subject id with no stored row, `get_or_create_user`
without a (truthy) email raises `ValueError` — the `InvalidArgument` of the
spec — leaving the table unchanged; with an email it inserts and returns a
row carrying the freshly drawn internal id, the subject id, the email and
the optional username. -/
theorem C8_creation_requires_email (db : List User) (freshId : Nat) (now : Int)
    (cid : String) (username : Option String)
    (hnone : db.find? (fun u => u.clerk_user_id == cid) = none) :
    (∀ email, pyTruthyStr email = false →
      get_or_create_user db freshId now cid email username =
        (.error "Email is required to create a new user", db))
    ∧ ∀ e : String, e ≠ "" →
      get_or_create_user db freshId now cid (some e) username =
        (.ok ⟨freshId, cid, e, username, 0, some now⟩,
         db ++ [⟨freshId, cid, e, username, 0, some now⟩]) := by
  constructor
  · intro email hfalse
    exact get_or_create_notfound_falsy db freshId now cid email username hnone hfalse
  · intro e he
    have ht : pyTruthyStr (some e) = true := by simp [pyTruthyStr, he]
    exact get_or_create_notfound_truthy db freshId now cid (some e) username hnone ht

/-- Witness for C8 on an empty table. -/
theorem C8_creation_requires_email_witness :
    get_or_create_user [] 5 9 "clerk_1" none none =
      (.error "Email is required to create a new user", [])
    ∧ get_or_create_user [] 5 9 "clerk_1" (some "a@b.c") none =
        (.ok ⟨5, "clerk_1", "a@b.c", none, 0, some 9⟩,
         [⟨5, "clerk_1", "a@b.c", none, 0, some 9⟩]) :=
  ⟨(C8_creation_requires_email [] 5 9 "clerk_1" none (by decide)).1 none (by decide),
   (C8_creation_requires_email [] 5 9 "clerk_1" none (by decide)).2 "a@b.c" (by decide)⟩

/-- Claim C9: `get_or_create_user` is idempotent for identical arguments:
if a first call returns a row, a second call with the same subject id,
email and username (and any fresh id and clock) returns the very same row —
same internal id — and leaves the table exactly as the first call left it:
no second record is created. -/
theorem C9_get_or_create_idempotent (db : List User) (fid1 fid2 : Nat)
    (now1 now2 : Int) (cid : String) (email username : Option String)
    (u1 : User) (db1 : List User)
    (h1 : get_or_create_user db fid1 now1 cid email username = (.ok u1, db1)) :
    get_or_create_user db1 fid2 now2 cid email username = (.ok u1, db1) := by
  cases hf : db.find? (fun x => x.clerk_user_id == cid) with
  | some u =>
      rw [get_or_create_found db fid1 now1 cid email username u hf] at h1
      have hu : updUsername (updEmail u email) username = u1 := by
        have := congrArg Prod.fst h1
        simpa using this
      have hdb : updateFirst (fun x => x.clerk_user_id == cid)
          (fun _ => updUsername (updEmail u email) username) db = db1 := by
        have := congrArg Prod.snd h1
        simpa using this
      have hpu0 := List.find?_some hf
      have hpu : (u.clerk_user_id == cid) = true := hpu0
      have hpu1 : (u1.clerk_user_id == cid) = true := by
        rw [← hu, updUsername_clerk, updEmail_clerk]
        exact hpu
      have hfind1 : db1.find? (fun x => x.clerk_user_id == cid) = some u1 := by
        rw [← hdb, ← hu]
        exact find?_updateFirst _ _ u (hu ▸ hpu1) db hf
      rw [get_or_create_found db1 fid2 now2 cid email username u1 hfind1]
      rw [← hu, second_update_id, hu]
      rw [updateFirst_self _ u1 db1 hfind1]
  | none =>
      by_cases ht : pyTruthyStr email = true
      · rw [get_or_create_notfound_truthy db fid1 now1 cid email username hf ht] at h1
        have hu : (⟨fid1, cid, email.getD "", username, 0, some now1⟩ : User) = u1 := by
          have := congrArg Prod.fst h1
          simpa using this
        have hdb : db ++ [(⟨fid1, cid, email.getD "", username, 0, some now1⟩ : User)] = db1 := by
          have := congrArg Prod.snd h1
          simpa using this
        have hpn : ((⟨fid1, cid, email.getD "", username, 0, some now1⟩ : User).clerk_user_id
            == cid) = true := by simp
        have hfind1 : db1.find? (fun x => x.clerk_user_id == cid) = some u1 := by
          rw [← hdb, ← hu]
          exact find?_append_none _ _ hpn db hf
        rw [get_or_create_found db1 fid2 now2 cid email username u1 hfind1]
        have hnoop : updUsername (updEmail u1 email) username = u1 := by
          have he : updEmail u1 email = u1 := by
            apply updEmail_noop
            intro e he
            right
            rw [← hu, he]
            rfl
          rw [he]
          apply updUsername_noop
          intro v hv
          right
          rw [← hu, hv]
        rw [hnoop, updateFirst_self _ u1 db1 hfind1]
      · rw [get_or_create_notfound_falsy db fid1 now1 cid email username hf
            (by simpa using ht)] at h1
        exact absurd (congrArg Prod.fst h1) (by simp)

/-- Witness for C9: creating a user then calling again with the same
subject id and email (different fresh id and clock) returns the same row
and table. -/
theorem C9_get_or_create_idempotent_witness :
    get_or_create_user [] 1 0 "clerk_1" (some "a@b.c") none =
      (.ok ⟨1, "clerk_1", "a@b.c", none, 0, some 0⟩,
       [⟨1, "clerk_1", "a@b.c", none, 0, some 0⟩])
    ∧ get_or_create_user [⟨1, "clerk_1", "a@b.c", none, 0, some 0⟩] 2 5 "clerk_1"
        (some "a@b.c") none =
      (.ok ⟨1, "clerk_1", "a@b.c", none, 0, some 0⟩,
       [⟨1, "clerk_1", "a@b.c", none, 0, some 0⟩]) :=
  ⟨by decide,
   C9_get_or_create_idempotent [] 1 2 0 5 "clerk_1" (some "a@b.c") none
     ⟨1, "clerk_1", "a@b.c", none, 0, some 0⟩
     [⟨1, "clerk_1", "a@b.c", none, 0, some 0⟩] (by decide)⟩

end AiCodeMentor
